import Mathlib

/-!
Shallow embedding of `app.py` (nano_whatsapp): a Flask webhook that forwards
an inbound WhatsApp message to an image-generation service, persists the
returned image, sends it back through Twilio, and serves/cleans up the
stored files.

External effects (the generation call, PIL decode/save, the Twilio send,
the uuid token, the NGROK_URL environment variable) are modelled as an
`Env` oracle; the filesystem and the in-memory registry are explicit state;
Python exceptions are `Except` errors carrying the side effects performed
before the raise.  Bytes are `List Nat`.
-/

/-- One part of a generation response: `part.text` and `part.inline_data`
are each optional, mirroring `google.genai` response parts. -/
structure RespPart where
  text : Option String
  inline_data : Option (List Nat)
deriving DecidableEq, Repr

/-- One candidate of a generation response (`response.candidates[i]`),
reduced to its `content.parts`. -/
structure Candidate where
  parts : List RespPart
deriving DecidableEq, Repr

/-- A generation response: an ordered list of candidates. -/
structure GenResponse where
  candidates : List Candidate
deriving DecidableEq, Repr

/-- A Python exception, reduced to its message. -/
structure PyErr where
  msg : String
deriving DecidableEq, Repr

/-- One `twilio_client.messages.create` invocation, with the arguments the
handler passes (`to` is `request.form.get('From')`, hence optional). -/
structure TwilioCall where
  body : String
  from_ : String
  to_ : Option String
  media_url : List String
deriving DecidableEq, Repr

/-- Process-wide mutable state: the working-directory files (name, bytes;
most recent write first) and the `generated_images` registry keys. -/
structure ProcState where
  fs : List (String × List Nat)
  registry : List String
deriving DecidableEq, Repr

/-- Observable effects of one request: resulting process state, the prompts
sent to the generation service, and the Twilio calls attempted. -/
structure Effects where
  state : ProcState
  genCalls : List String
  twilioCalls : List TwilioCall
deriving DecidableEq, Repr

/-- The environment oracle for one request: outcome of the generation call,
the random uuid token, the behaviour of `Image.open`/`image.save` (payload
bytes to bytes written on disk, or an exception), the `NGROK_URL` variable,
and the outcome of the Twilio send (message SID or exception). -/
structure Env where
  genResult : Except PyErr GenResponse
  token : String
  decodeSave : List Nat → Except PyErr (List Nat)
  ngrokUrlVar : Option String
  twilioResult : Except PyErr String

/-- What the webhook handler returns: the TwiML messages of the reply plus
the effects performed. -/
structure HandlerResult where
  messages : List String
  effects : Effects
deriving DecidableEq, Repr

/-- `"✅ Your image has been generated and is on its way!"` (success ack). -/
def successText : String := "✅ Your image has been generated and is on its way!"

/-- The no-image notice prefixed to returned text, newline included. -/
def noImageText : String := "⚠️ No image generated, but here's the response:\n"

/-- The fixed could-not-generate notice. -/
def couldNotText : String := "❌ Sorry, I couldn't generate an image from that prompt. Please try something else!"

/-- The fixed generic error acknowledgment of the outer `except` block. -/
def errorText : String := "❌ Sorry, an error occurred while processing your request. Please try again."

/-- The fixed Twilio sandbox sender number. -/
def twilioFromNumber : String := "whatsapp:+14155238886"

/-- The hardcoded fallback for the `NGROK_URL` environment variable. -/
def defaultNgrokUrl : String := "https://4e8be9ba5910.ngrok-free.app"

/-- The media caption: includes the original prompt text. -/
def captionText (msg : String) : String :=
  "🎨 Here's your generated image for: '" ++ msg ++ "'"

/-- `f"generated_\x7buuid.uuid4().hex[:8]\x7d.png"`: the random-token filename. -/
def genFilename (token : String) : String := "generated_" ++ token ++ ".png"

/-- `f"\x7bngrok_url\x7d/images/\x7bimage_filename\x7d"`: the public media URL. -/
def imageUrl (ngrok fname : String) : String := ngrok ++ "/images/" ++ fname

/-- Python's `str.strip()` on the message body: drop leading and trailing
whitespace characters. -/
def pyStrip (s : String) : String :=
  ⟨((s.data.dropWhile Char.isWhitespace).reverse.dropWhile Char.isWhitespace).reverse⟩

/-- The part-processing loop, with the running `(image_data, response_text)`
accumulator: a part with `text` present appends `text + "\n"`; otherwise a
part with `inline_data` present overwrites `image_data`. -/
def processPartsAux : List RespPart → Option (List Nat) × String → Option (List Nat) × String
  | [], acc => acc
  | p :: rest, acc =>
    match p.text with
    | some t => processPartsAux rest (acc.1, acc.2 ++ t ++ "\n")
    | none =>
      match p.inline_data with
      | some d => processPartsAux rest (some d, acc.2)
      | none => processPartsAux rest acc

/-- Result of the loop over `response.candidates[0].content.parts`, started
from `image_data = None`, `response_text = ""`. -/
def processParts (parts : List RespPart) : Option (List Nat) × String :=
  processPartsAux parts (none, "")

/-- The fallback acknowledgment when `image_data` is not truthy: the text
with the no-image notice if `response_text` is truthy, else the fixed
could-not-generate notice. -/
def fallbackMessage (response_text : String) : String :=
  if response_text = "" then couldNotText else noImageText ++ response_text

/-- The effects after a successful decode/save in the image branch: the
file written under the token filename, the registry entry added, and the
Twilio call attempted (caption with the prompt, fixed sender, media URL
built from the configured base URL and the filename). -/
def imageEffects (env : Env) (st : ProcState) (incoming_msg : String)
    (from_number : Option String) (saved : List Nat) : Effects :=
  ⟨⟨(genFilename env.token, saved) :: st.fs, genFilename env.token :: st.registry⟩,
   [incoming_msg],
   [⟨captionText incoming_msg, twilioFromNumber, from_number,
     [imageUrl (env.ngrokUrlVar.getD defaultNgrokUrl) (genFilename env.token)]⟩]⟩

/-- The `if image_data:` branch: save the decoded image under the token
filename, record it in the registry, build the public URL, send via Twilio,
and acknowledge with the fixed success text.  A decode/save or Twilio
exception becomes an `Except.error` carrying the effects performed so far. -/
def imageBranch (env : Env) (st : ProcState) (incoming_msg : String)
    (from_number : Option String) (d : List Nat) :
    Except (PyErr × Effects) (String × Effects) :=
  match env.decodeSave d with
  | .error e => .error (e, ⟨st, [incoming_msg], []⟩)
  | .ok saved =>
    match env.twilioResult with
    | .error e => .error (e, imageEffects env st incoming_msg from_number saved)
    | .ok _ => .ok (successText, imageEffects env st incoming_msg from_number saved)

/-- The body of the handler's `try` block, for a non-empty trimmed message:
generation call, `candidates[0]` access, part loop, then the image branch or
the fallback branch.  `Except.error` is a raised exception (caught by the
caller), carrying the effects performed before the raise. -/
def tryBlock (env : Env) (st : ProcState) (incoming_msg : String)
    (from_number : Option String) :
    Except (PyErr × Effects) (String × Effects) :=
  match env.genResult with
  | .error e => .error (e, ⟨st, [incoming_msg], []⟩)
  | .ok response =>
    match response.candidates.head? with
    | none => .error (⟨"IndexError: list index out of range"⟩, ⟨st, [incoming_msg], []⟩)
    | some cand =>
      match (processParts cand.parts).1 with
      | some d =>
        if d.isEmpty then
          .ok (fallbackMessage (processParts cand.parts).2, ⟨st, [incoming_msg], []⟩)
        else imageBranch env st incoming_msg from_number d
      | none => .ok (fallbackMessage (processParts cand.parts).2, ⟨st, [incoming_msg], []⟩)

/-- `incoming_whatsapp`: trims the body, returns an empty reply for an empty
message, otherwise runs the pipeline and catches any exception at the outer
boundary, replying with the fixed generic error text. -/
def incoming_whatsapp (env : Env) (st : ProcState) (body : String)
    (from_number : Option String) : HandlerResult :=
  if pyStrip body = "" then ⟨[], ⟨st, [], []⟩⟩
  else
    match tryBlock env st (pyStrip body) from_number with
    | .ok (m, eff) => ⟨[m], eff⟩
    | .error (_, eff) => ⟨[errorText], eff⟩

/-- Working-directory file lookup (most recent write shadows older ones). -/
def lookupFile : List (String × List Nat) → String → Option (List Nat)
  | [], _ => none
  | e :: rest, name => if e.1 = name then some e.2 else lookupFile rest name

/-- Result of the image-serving endpoint: the file's bytes with a mimetype,
or a not-found body with an HTTP status code. -/
inductive ServeResult where
  | file (bytes : List Nat) (mimetype : String)
  | notFound (body : String) (code : Nat)
deriving DecidableEq, Repr

/-- `serve_image`: `send_file(filename, mimetype='image/png')`, with
`FileNotFoundError` turned into `("Image not found", 404)`. -/
def serve_image (fs : List (String × List Nat)) (filename : String) : ServeResult :=
  match lookupFile fs filename with
  | some b => ServeResult.file b "image/png"
  | none => ServeResult.notFound "Image not found" 404

/-- Whether a filename matches the glob pattern `generated_*.png`: it
starts with `generated_` and ends with `.png` (the star matches any, even
empty, character sequence; no name shorter than both affixes can satisfy
this conjunction, so it coincides with the glob). -/
def matchesPat (name : String) : Bool :=
  "generated_".data.isPrefixOf name.data && ".png".data.isSuffixOf name.data

/-- `os.remove`: drop the named file from the working directory. -/
def removeFile (fs : List (String × List Nat)) (name : String) :
    List (String × List Nat) :=
  fs.filter (fun e => decide (¬ e.1 = name))

/-- The cleanup loop over the glob matches.  The `try` wraps the whole loop,
so the first failing `os.remove` (per the `removeFails` oracle) raises and
aborts the remaining iterations, leaving that file and the rest in place. -/
def cleanupLoop (removeFails : String → Bool) :
    List String → List (String × List Nat) → List (String × List Nat)
  | [], fs => fs
  | n :: rest, fs =>
    if removeFails n then fs else cleanupLoop removeFails rest (removeFile fs n)

/-- `glob.glob("generated_*.png")`: the matching filenames, in directory
order. -/
def globMatches (fs : List (String × List Nat)) : List String :=
  (fs.map Prod.fst).filter matchesPat

/-- `cleanup_generated_images`: delete every glob match, with a single
`try`/`except` around the whole loop. -/
def cleanup_generated_images (removeFails : String → Bool)
    (fs : List (String × List Nat)) : List (String × List Nat) :=
  cleanupLoop removeFails (globMatches fs) fs

/-! ### Derived views of the part loop -/

/-- The payloads of the inline-image parts (those with `text` absent and
`inline_data` present), in response order. -/
def imagePayloads (parts : List RespPart) : List (List Nat) :=
  parts.filterMap (fun p => match p.text with | some _ => none | none => p.inline_data)

/-- The accumulated response text: each text fragment followed by a
newline, in response order. -/
def textAccum : List RespPart → String
  | [] => ""
  | p :: rest =>
    match p.text with
    | some t => t ++ "\n" ++ textAccum rest
    | none => textAccum rest

/-- An image-only response part. -/
def imgPart (d : List Nat) : RespPart := ⟨none, some d⟩

/-- A text-only response part. -/
def txtPart (t : String) : RespPart := ⟨some t, none⟩

/-- Empty process state. -/
def st0 : ProcState := ⟨[], []⟩

/-- A sample environment: fixed token, identity decode/save, no `NGROK_URL`
override, successful Twilio send. -/
def mkEnv (g : Except PyErr GenResponse) : Env :=
  ⟨g, "cafebabe", fun d => .ok d, none, .ok "SM123"⟩

theorem list_getLast?_cons {α : Type} (a : α) (l : List α) :
    (a :: l).getLast? = Option.or l.getLast? (some a) := by
  induction l generalizing a with
  | nil => rfl
  | cons b t ih => rw [List.getLast?_cons_cons, ih b]; cases t.getLast? <;> rfl

theorem processPartsAux_fst (parts : List RespPart) :
    ∀ acc, (processPartsAux parts acc).1 =
      Option.or (imagePayloads parts).getLast? acc.1 := by
  induction parts with
  | nil => intro acc; rfl
  | cons p rest ih =>
    intro acc
    cases hp : p.text with
    | some t =>
      simp only [processPartsAux, hp, ih]
      have hip : imagePayloads (p :: rest) = imagePayloads rest := by
        simp [imagePayloads, List.filterMap_cons, hp]
      rw [hip]
    | none =>
      cases hd : p.inline_data with
      | some d =>
        simp only [processPartsAux, hp, hd, ih]
        have hip : imagePayloads (p :: rest) = d :: imagePayloads rest := by
          simp [imagePayloads, List.filterMap_cons, hp, hd]
        rw [hip, list_getLast?_cons]
        cases (imagePayloads rest).getLast? <;> rfl
      | none =>
        simp only [processPartsAux, hp, hd, ih]
        have hip : imagePayloads (p :: rest) = imagePayloads rest := by
          simp [imagePayloads, List.filterMap_cons, hp, hd]
        rw [hip]

theorem processPartsAux_snd (parts : List RespPart) :
    ∀ acc, (processPartsAux parts acc).2 = acc.2 ++ textAccum parts := by
  induction parts with
  | nil => intro acc; exact (String.append_empty acc.2).symm
  | cons p rest ih =>
    intro acc
    cases hp : p.text with
    | some t =>
      simp only [processPartsAux, hp, ih, textAccum, String.append_assoc]
    | none =>
      cases hd : p.inline_data with
      | some d => simp only [processPartsAux, hp, hd, ih, textAccum]
      | none => simp only [processPartsAux, hp, hd, ih, textAccum]

/-- The candidate image after the loop is the payload of the last inline
image part (not the first). -/
theorem processParts_fst (parts : List RespPart) :
    (processParts parts).1 = (imagePayloads parts).getLast? := by
  rw [processParts, processPartsAux_fst]
  cases (imagePayloads parts).getLast? <;> rfl

/-- The response text after the loop is the accumulated text. -/
theorem processParts_snd (parts : List RespPart) :
    (processParts parts).2 = textAccum parts := by
  rw [processParts, processPartsAux_snd]
  exact String.empty_append _

/-! ### C3, C4, C5 -/

/-- C3: every exception raised inside the pipeline (`tryBlock` evaluating to
an error, covering the generation call, response parsing, image
decode/persist and the provider send) is caught at the single outer
boundary: the handler returns the fixed generic error acknowledgment, and
the reply is well-formed (the exception does not propagate). -/
theorem incoming_whatsapp_catches_exceptions (env : Env) (st : ProcState)
    (body : String) (f : Option String) (p : PyErr × Effects)
    (h1 : ¬ pyStrip body = "") (h2 : tryBlock env st (pyStrip body) f = .error p) :
    incoming_whatsapp env st body f = ⟨[errorText], p.2⟩ := by
  obtain ⟨e, eff⟩ := p
  unfold incoming_whatsapp
  rw [if_neg h1, h2]

/-- Witness for C3 at a concrete failing generation call. -/
theorem incoming_whatsapp_catches_exceptions_witness :
    incoming_whatsapp (mkEnv (.error ⟨"boom"⟩)) st0 "hi" none =
      ⟨[errorText], ⟨st0, ["hi"], []⟩⟩ :=
  incoming_whatsapp_catches_exceptions (mkEnv (.error ⟨"boom"⟩)) st0 "hi" none
    (⟨"boom"⟩, ⟨st0, ["hi"], []⟩) (by decide) (by rfl)

/-- C4: when the generation-service call itself raises, no file is written,
the registry is untouched, no Twilio call is attempted, and the
acknowledgment is exactly the fixed generic error text. -/
theorem incoming_whatsapp_generation_error (env : Env) (st : ProcState)
    (body : String) (f : Option String) (e : PyErr)
    (h1 : ¬ pyStrip body = "") (h2 : env.genResult = .error e) :
    incoming_whatsapp env st body f = ⟨[errorText], ⟨st, [pyStrip body], []⟩⟩ := by
  unfold incoming_whatsapp tryBlock
  rw [if_neg h1, h2]

/-- Witness for C4 at a concrete failing generation call. -/
theorem incoming_whatsapp_generation_error_witness :
    incoming_whatsapp (mkEnv (.error ⟨"rate limited"⟩)) st0 "a red bicycle" none =
      ⟨[errorText], ⟨st0, ["a red bicycle"], []⟩⟩ :=
  incoming_whatsapp_generation_error (mkEnv (.error ⟨"rate limited"⟩)) st0
    "a red bicycle" none ⟨"rate limited"⟩ (by decide) (by rfl)

/-- C5: a body that is empty after trimming produces an empty reply (zero
messages), no generation call, no file write, no registry change, and no
provider call. -/
theorem incoming_whatsapp_blank_body (env : Env) (st : ProcState)
    (body : String) (f : Option String) (h : pyStrip body = "") :
    incoming_whatsapp env st body f = ⟨[], ⟨st, [], []⟩⟩ := by
  unfold incoming_whatsapp
  rw [if_pos h]

/-- Witness for C5 at a whitespace-only body. -/
theorem incoming_whatsapp_blank_body_witness :
    incoming_whatsapp (mkEnv (.error ⟨"never called"⟩)) st0 "   " none =
      ⟨[], ⟨st0, [], []⟩⟩ :=
  incoming_whatsapp_blank_body (mkEnv (.error ⟨"never called"⟩)) st0 "   " none
    (by decide)

/-! ### C2: exactly one acknowledgment -/

theorem tryBlock_ok_message (env : Env) (st : ProcState) (m0 : String)
    (f : Option String) (m : String) (eff : Effects)
    (h : tryBlock env st m0 f = .ok (m, eff)) :
    m = successText ∨ ∃ t, m = fallbackMessage t := by
  unfold tryBlock at h
  split at h
  · exact absurd h (by simp)
  · split at h
    · exact absurd h (by simp)
    · split at h
      · split at h
        · simp only [Except.ok.injEq, Prod.mk.injEq] at h
          exact Or.inr ⟨_, h.1.symm⟩
        · unfold imageBranch at h
          split at h
          · exact absurd h (by simp)
          · split at h
            · exact absurd h (by simp)
            · simp only [Except.ok.injEq, Prod.mk.injEq] at h
              exact Or.inl h.1.symm
      · simp only [Except.ok.injEq, Prod.mk.injEq] at h
        exact Or.inr ⟨_, h.1.symm⟩

/-- C2: every request whose body is non-empty after trimming gets exactly
one acknowledgment message, and it is the fixed success text, a no-image
fallback (text echo with the no-image notice, or the fixed could-not
notice), or the fixed generic error text — never zero, never two. -/
theorem incoming_whatsapp_exactly_one_ack (env : Env) (st : ProcState)
    (body : String) (f : Option String) (h : ¬ pyStrip body = "") :
    ∃ m, (incoming_whatsapp env st body f).messages = [m] ∧
      (m = successText ∨ (∃ t, m = noImageText ++ t) ∨
        m = couldNotText ∨ m = errorText) := by
  unfold incoming_whatsapp
  rw [if_neg h]
  cases htb : tryBlock env st (pyStrip body) f with
  | error p =>
    obtain ⟨e, eff⟩ := p
    exact ⟨errorText, rfl, Or.inr (Or.inr (Or.inr rfl))⟩
  | ok q =>
    obtain ⟨m, eff⟩ := q
    refine ⟨m, rfl, ?_⟩
    rcases tryBlock_ok_message env st (pyStrip body) f m eff htb with h1 | ⟨t, h2⟩
    · exact Or.inl h1
    · unfold fallbackMessage at h2
      by_cases ht : t = ""
      · rw [if_pos ht] at h2; exact Or.inr (Or.inr (Or.inl h2))
      · rw [if_neg ht] at h2; exact Or.inr (Or.inl ⟨t, h2⟩)

/-- Witness for C2 at a concrete request (generation fails, so the one
message is the generic error text). -/
theorem incoming_whatsapp_exactly_one_ack_witness :
    ∃ m, (incoming_whatsapp (mkEnv (.error ⟨"boom"⟩)) st0 "draw a cat" none).messages = [m] ∧
      (m = successText ∨ (∃ t, m = noImageText ++ t) ∨
        m = couldNotText ∨ m = errorText) :=
  incoming_whatsapp_exactly_one_ack (mkEnv (.error ⟨"boom"⟩)) st0 "draw a cat" none
    (by decide)

/-! ### C1: which image payload is used -/

/-- C1 counterexample: two responses that agree on the first inline image
part (payload `[1]`) but differ in a later one produce different persisted
files; the file that is written holds the second payload `[2]`, not the
first.  So the pipeline does not use the first inline image payload, and
the output does depend on later image parts. -/
theorem incoming_whatsapp_first_image_counterexample :
    incoming_whatsapp (mkEnv (.ok ⟨[⟨[imgPart [1], imgPart [2]]⟩]⟩)) st0 "hi" none ≠
      incoming_whatsapp (mkEnv (.ok ⟨[⟨[imgPart [1], imgPart [3]]⟩]⟩)) st0 "hi" none ∧
    (incoming_whatsapp (mkEnv (.ok ⟨[⟨[imgPart [1], imgPart [2]]⟩]⟩)) st0 "hi" none).effects.state.fs =
      [(genFilename "cafebabe", [2])] := by
  decide

/-- C1 (amended): the pipeline uses the **last** inline image payload
encountered as the candidate image, and the persisted file, media URL and
acknowledgment depend on the response only through the part-loop result of
the first candidate — so they are unaffected by image parts before the last
one, not after it. -/
theorem incoming_whatsapp_last_image_payload :
    (∀ parts : List RespPart,
      (processParts parts).1 = (imagePayloads parts).getLast?) ∧
    (∀ (g₁ g₂ : GenResponse) (tok : String)
      (ds : List Nat → Except PyErr (List Nat)) (ng : Option String)
      (tw : Except PyErr String) (st : ProcState) (body : String)
      (f : Option String),
      g₁.candidates.head?.map (fun c => processParts c.parts) =
        g₂.candidates.head?.map (fun c => processParts c.parts) →
      incoming_whatsapp ⟨.ok g₁, tok, ds, ng, tw⟩ st body f =
        incoming_whatsapp ⟨.ok g₂, tok, ds, ng, tw⟩ st body f) := by
  constructor
  · exact processParts_fst
  · intro g₁ g₂ tok ds ng tw st body f h
    unfold incoming_whatsapp
    by_cases hb : pyStrip body = ""
    · rw [if_pos hb, if_pos hb]
    · rw [if_neg hb, if_neg hb]
      have htb : tryBlock ⟨.ok g₁, tok, ds, ng, tw⟩ st (pyStrip body) f =
          tryBlock ⟨.ok g₂, tok, ds, ng, tw⟩ st (pyStrip body) f := by
        dsimp only [tryBlock]
        cases h₁ : g₁.candidates.head? with
        | none =>
          cases h₂ : g₂.candidates.head? with
          | none => rfl
          | some c₂ => rw [h₁, h₂] at h; simp at h
        | some c₁ =>
          cases h₂ : g₂.candidates.head? with
          | none => rw [h₁, h₂] at h; simp at h
          | some c₂ =>
            rw [h₁, h₂] at h
            simp only [Option.map_some', Option.some.injEq] at h
            dsimp only
            rw [h]
            rfl
      rw [htb]

/-- Witness for C1's amended invariance: dropping the earlier image part
(payload `[1]`) and keeping only the last (payload `[2]`) leaves the whole
handler output unchanged. -/
theorem incoming_whatsapp_last_image_payload_witness :
    incoming_whatsapp (mkEnv (.ok ⟨[⟨[imgPart [1], imgPart [2]]⟩]⟩)) st0 "hi" none =
      incoming_whatsapp (mkEnv (.ok ⟨[⟨[imgPart [2]]⟩]⟩)) st0 "hi" none :=
  incoming_whatsapp_last_image_payload.2 ⟨[⟨[imgPart [1], imgPart [2]]⟩]⟩
    ⟨[⟨[imgPart [2]]⟩]⟩ "cafebabe" (fun d => .ok d) none (.ok "SM123") st0 "hi" none
    (by decide)

/-! ### C10: text-bearing parts never contribute an image; first candidate only -/

/-- Strip the inline payload from parts whose `text` field is present. -/
def maskInline (p : RespPart) : RespPart :=
  match p.text with
  | some t => ⟨some t, none⟩
  | none => p

theorem processPartsAux_mask (parts : List RespPart) :
    ∀ acc, processPartsAux (parts.map maskInline) acc = processPartsAux parts acc := by
  induction parts with
  | nil => intro acc; rfl
  | cons p rest ih =>
    intro acc
    cases hp : p.text with
    | some t =>
      have hm : maskInline p = ⟨some t, none⟩ := by simp [maskInline, hp]
      simp only [List.map_cons, hm, processPartsAux, hp, ih]
    | none =>
      have hm : maskInline p = p := by simp [maskInline, hp]
      simp only [List.map_cons, hm, processPartsAux, hp, ih]

/-- C10: (1) the loop result is unchanged if inline payloads are removed
from every part whose `text` field is present (such payloads are never
captured); (2) any captured image payload comes from a part with `text`
absent and `inline_data` present; (3) only the first candidate of the
response is examined — later candidates never affect the handler. -/
theorem processParts_text_precedence :
    (∀ parts : List RespPart,
      processParts (parts.map maskInline) = processParts parts) ∧
    (∀ (parts : List RespPart) (d : List Nat),
      (processParts parts).1 = some d →
      ∃ p, p ∈ parts ∧ p.text = none ∧ p.inline_data = some d) ∧
    (∀ (c : Candidate) (rest : List Candidate) (tok : String)
      (ds : List Nat → Except PyErr (List Nat)) (ng : Option String)
      (tw : Except PyErr String) (st : ProcState) (body : String)
      (f : Option String),
      incoming_whatsapp ⟨.ok ⟨c :: rest⟩, tok, ds, ng, tw⟩ st body f =
        incoming_whatsapp ⟨.ok ⟨[c]⟩, tok, ds, ng, tw⟩ st body f) := by
  refine ⟨fun parts => processPartsAux_mask parts _, ?_, ?_⟩
  · intro parts d h
    rw [processParts_fst] at h
    obtain ⟨hne, heq⟩ := List.mem_getLast?_eq_getLast h
    have hmem : d ∈ imagePayloads parts := heq ▸ List.getLast_mem hne
    obtain ⟨p, hp, hf⟩ := List.mem_filterMap.mp hmem
    cases hpt : p.text with
    | some t => rw [hpt] at hf; simp at hf
    | none => rw [hpt] at hf; exact ⟨p, hp, hpt, hf⟩
  · intro c rest tok ds ng tw st body f
    unfold incoming_whatsapp
    by_cases hb : pyStrip body = ""
    · rw [if_pos hb, if_pos hb]
    · rw [if_neg hb, if_neg hb]
      rfl

/-- Witness for C10's captured-payload clause at a concrete one-part
response. -/
theorem processParts_text_precedence_witness :
    ∃ p, p ∈ [imgPart [5]] ∧ p.text = none ∧ p.inline_data = some [5] :=
  processParts_text_precedence.2.1 [imgPart [5]] [5] (by decide)

/-! ### C6: text-only responses -/

theorem imagePayloads_nil (parts : List RespPart)
    (h : ∀ p, p ∈ parts → p.inline_data = none) : imagePayloads parts = [] := by
  induction parts with
  | nil => rfl
  | cons p rest ih =>
    simp only [imagePayloads, List.filterMap_cons]
    cases hp : p.text with
    | some t =>
      exact ih fun q hq => h q (List.mem_cons_of_mem p hq)
    | none =>
      rw [h p (List.mem_cons_self p rest)]
      exact ih fun q hq => h q (List.mem_cons_of_mem p hq)

/-- C6 counterexample: with one text part `"Here you go"` and no image, the
acknowledgment carries the accumulated buffer `"Here you go\n"` — each
fragment is *followed* by a newline — which differs from the fragments
joined by newline (here just `"Here you go"`): the claim's string is off by
a trailing newline. -/
theorem incoming_whatsapp_text_only_counterexample :
    (incoming_whatsapp (mkEnv (.ok ⟨[⟨[txtPart "Here you go"]⟩]⟩)) st0 "hi" none).messages =
      [noImageText ++ "Here you go" ++ "\n"] ∧
    noImageText ++ "Here you go" ++ "\n" ≠
      noImageText ++ String.intercalate "\n" ["Here you go"] := by
  decide

/-- C6 (amended): for a response whose first candidate has no inline image
data in any part, no file is written, the registry is unchanged, no Twilio
call occurs, and the single acknowledgment is `fallbackMessage` of the
accumulated text — the no-image notice followed by every text fragment each
terminated by a newline, or the fixed could-not-generate notice when there
is no text. -/
theorem incoming_whatsapp_text_only_response (env : Env) (st : ProcState)
    (body : String) (f : Option String) (resp : GenResponse) (cand : Candidate)
    (h1 : ¬ pyStrip body = "") (h2 : env.genResult = .ok resp)
    (h3 : resp.candidates.head? = some cand)
    (h4 : ∀ p, p ∈ cand.parts → p.inline_data = none) :
    incoming_whatsapp env st body f =
      ⟨[fallbackMessage (textAccum cand.parts)], ⟨st, [pyStrip body], []⟩⟩ := by
  have himg : (processParts cand.parts).1 = none := by
    rw [processParts_fst, imagePayloads_nil cand.parts h4]
    rfl
  have htb : tryBlock env st (pyStrip body) f =
      .ok (fallbackMessage (textAccum cand.parts), ⟨st, [pyStrip body], []⟩) := by
    simp only [tryBlock, h2, h3, himg, processParts_snd]
  unfold incoming_whatsapp
  rw [if_neg h1, htb]

/-- Witness for C6 at a concrete text-only response. -/
theorem incoming_whatsapp_text_only_response_witness :
    incoming_whatsapp (mkEnv (.ok ⟨[⟨[txtPart "Here you go"]⟩]⟩)) st0 "hi" none =
      ⟨[fallbackMessage (textAccum [txtPart "Here you go"])],
       ⟨st0, ["hi"], []⟩⟩ :=
  incoming_whatsapp_text_only_response (mkEnv (.ok ⟨[⟨[txtPart "Here you go"]⟩]⟩))
    st0 "hi" none ⟨[⟨[txtPart "Here you go"]⟩]⟩ ⟨[txtPart "Here you go"]⟩
    (by decide) rfl rfl (by decide)

/-! ### C7: the image-success path -/

theorem run_image_success (env : Env) (st : ProcState) (body : String)
    (f : Option String) (resp : GenResponse) (cand : Candidate)
    (d saved : List Nat) (sid : String)
    (h1 : ¬ pyStrip body = "") (h2 : env.genResult = .ok resp)
    (h3 : resp.candidates.head? = some cand)
    (h4 : (processParts cand.parts).1 = some d) (h5 : ¬ d = [])
    (h6 : env.decodeSave d = .ok saved) (h7 : env.twilioResult = .ok sid) :
    incoming_whatsapp env st body f =
      ⟨[successText], imageEffects env st (pyStrip body) f saved⟩ := by
  have hd : d.isEmpty = false := by
    cases d with
    | nil => exact absurd rfl h5
    | cons a l => rfl
  have htb : tryBlock env st (pyStrip body) f =
      .ok (successText, imageEffects env st (pyStrip body) f saved) := by
    simp only [tryBlock, h2, h3, h4]
    rw [hd, if_neg Bool.false_ne_true]
    simp only [imageBranch, h6, h7]
  unfold incoming_whatsapp
  rw [if_neg h1, htb]

/-- C7 counterexample: two responses "containing an inline image part" for
which the claim fails.  With a single image part whose payload is empty
(`b""` is falsy in Python), no file is persisted and the acknowledgment is
the could-not-generate notice, not the success text.  With a nonempty
payload but a failing Twilio send, the acknowledgment is the generic error
text, not the success text. -/
theorem incoming_whatsapp_image_part_counterexample :
    ((incoming_whatsapp (mkEnv (.ok ⟨[⟨[imgPart []]⟩]⟩)) st0 "hi" none).effects.state.fs = [] ∧
     (incoming_whatsapp (mkEnv (.ok ⟨[⟨[imgPart []]⟩]⟩)) st0 "hi" none).messages =
       [couldNotText]) ∧
    (incoming_whatsapp ⟨.ok ⟨[⟨[imgPart [7]]⟩]⟩, "cafebabe", fun d => .ok d, none,
        .error ⟨"twilio down"⟩⟩ st0 "hi" none).messages = [errorText] := by
  decide

/-- C7 (amended): when the candidate image payload is nonempty and the
decode/persist and Twilio send succeed, the pipeline persists exactly one
file under the freshly generated token filename, attaches exactly the URL
embedding that filename under the configured base URL, captions the
message with the original prompt, and acknowledges with the fixed success
text (see `imageEffects`). -/
theorem incoming_whatsapp_image_success (env : Env) (st : ProcState)
    (body : String) (f : Option String) (resp : GenResponse) (cand : Candidate)
    (d saved : List Nat) (sid : String)
    (h1 : ¬ pyStrip body = "") (h2 : env.genResult = .ok resp)
    (h3 : resp.candidates.head? = some cand)
    (h4 : (processParts cand.parts).1 = some d) (h5 : ¬ d = [])
    (h6 : env.decodeSave d = .ok saved) (h7 : env.twilioResult = .ok sid) :
    incoming_whatsapp env st body f =
      ⟨[successText], imageEffects env st (pyStrip body) f saved⟩ :=
  run_image_success env st body f resp cand d saved sid h1 h2 h3 h4 h5 h6 h7

/-- The spec's example scenario: text part `"Here you go"` plus an image
part, identity decode/save, successful Twilio send. -/
def envImgOk : Env := mkEnv (.ok ⟨[⟨[txtPart "Here you go", imgPart [9, 9]]⟩]⟩)

/-- Witness for C7 at the spec's example scenario. -/
theorem incoming_whatsapp_image_success_witness :
    incoming_whatsapp envImgOk st0 "a red bicycle" (some "whatsapp:+15551234567") =
      ⟨[successText],
       imageEffects envImgOk st0 "a red bicycle" (some "whatsapp:+15551234567") [9, 9]⟩ :=
  incoming_whatsapp_image_success envImgOk st0 "a red bicycle"
    (some "whatsapp:+15551234567") ⟨[⟨[txtPart "Here you go", imgPart [9, 9]]⟩]⟩
    ⟨[txtPart "Here you go", imgPart [9, 9]]⟩ [9, 9] [9, 9] "SM123"
    (by decide) rfl rfl (by decide) (by decide) rfl rfl

/-! ### C8: serving and round-trip -/

/-- C8: (1) fetching a filename with no stored file yields the not-found
result; (2) after a successful generation, fetching the freshly written
token filename returns exactly the bytes stored on disk for it. -/
theorem serve_image_roundtrip :
    (∀ (fs : List (String × List Nat)) (name : String),
      lookupFile fs name = none →
      serve_image fs name = ServeResult.notFound "Image not found" 404) ∧
    (∀ (env : Env) (st : ProcState) (body : String) (f : Option String)
      (resp : GenResponse) (cand : Candidate) (d saved : List Nat) (sid : String),
      ¬ pyStrip body = "" → env.genResult = .ok resp →
      resp.candidates.head? = some cand → (processParts cand.parts).1 = some d →
      ¬ d = [] → env.decodeSave d = .ok saved → env.twilioResult = .ok sid →
      serve_image (incoming_whatsapp env st body f).effects.state.fs
          (genFilename env.token) = ServeResult.file saved "image/png") := by
  constructor
  · intro fs name h
    unfold serve_image
    rw [h]
  · intro env st body f resp cand d saved sid h1 h2 h3 h4 h5 h6 h7
    rw [run_image_success env st body f resp cand d saved sid h1 h2 h3 h4 h5 h6 h7]
    simp [serve_image, lookupFile, imageEffects]

/-- Witness for C8: an empty directory serves not-found, and the file
written in the example scenario round-trips its stored bytes. -/
theorem serve_image_roundtrip_witness :
    serve_image [] "generated_zzzz.png" = ServeResult.notFound "Image not found" 404 ∧
    serve_image
        (incoming_whatsapp envImgOk st0 "a red bicycle"
          (some "whatsapp:+15551234567")).effects.state.fs
        (genFilename "cafebabe") = ServeResult.file [9, 9] "image/png" :=
  ⟨serve_image_roundtrip.1 [] "generated_zzzz.png" rfl,
   serve_image_roundtrip.2 envImgOk st0 "a red bicycle" (some "whatsapp:+15551234567")
     ⟨[⟨[txtPart "Here you go", imgPart [9, 9]]⟩]⟩
     ⟨[txtPart "Here you go", imgPart [9, 9]]⟩ [9, 9] [9, 9] "SM123"
     (by decide) rfl rfl (by decide) (by decide) rfl rfl⟩

/-! ### C9: shutdown cleanup -/

theorem cleanupLoop_all_ok (rf : String → Bool) (names : List String) :
    ∀ fs : List (String × List Nat), (∀ n, n ∈ names → rf n = false) →
      cleanupLoop rf names fs = fs.filter (fun e => decide (¬ e.1 ∈ names)) := by
  induction names with
  | nil =>
    intro fs h
    simp [cleanupLoop]
  | cons n rest ih =>
    intro fs h
    have hn : rf n = false := h n (List.mem_cons_self n rest)
    simp only [cleanupLoop, hn, Bool.false_eq_true, if_false]
    rw [ih (removeFile fs n) (fun m hm => h m (List.mem_cons_of_mem n hm))]
    unfold removeFile
    rw [List.filter_filter]
    apply List.filter_congr
    intro e he
    simp [List.mem_cons, not_or, Bool.and_comm]

/-- C9 counterexample: with files `generated_a.png` and `generated_b.png`
on disk and `os.remove` failing only on the first, cleanup leaves **both**
files in place: the single `try` around the loop aborts on the first
failure, so the failure does prevent the remaining matching file from
being deleted. -/
theorem cleanup_failure_counterexample :
    cleanup_generated_images (fun n => n == "generated_a.png")
        [("generated_a.png", [1]), ("generated_b.png", [2])] =
      [("generated_a.png", [1]), ("generated_b.png", [2])] ∧
    matchesPat "generated_b.png" = true ∧
    (fun n => n == "generated_a.png") "generated_b.png" = false := by
  decide

/-- C9 (amended): (1) when no removal fails, cleanup deletes exactly the
files matching `generated_*.png` (never consulting the registry, which is
not even an input); (2) a removal failure is caught by the single boundary
around the whole loop and aborts cleanup, leaving the filesystem as it was
at that point. -/
theorem cleanup_deletes_matching_files :
    (∀ (rf : String → Bool) (fs : List (String × List Nat)),
      (∀ n, matchesPat n = true → rf n = false) →
      cleanup_generated_images rf fs =
        fs.filter (fun e => !(matchesPat e.1))) ∧
    (∀ (rf : String → Bool) (n : String) (names : List String)
      (fs : List (String × List Nat)), rf n = true →
      cleanupLoop rf (n :: names) fs = fs) := by
  constructor
  · intro rf fs h
    unfold cleanup_generated_images
    rw [cleanupLoop_all_ok rf (globMatches fs) fs
      (fun n hn => h n (List.mem_filter.mp hn).2)]
    apply List.filter_congr
    intro e he
    by_cases hm : matchesPat e.1 = true
    · have hmem : e.1 ∈ globMatches fs :=
        List.mem_filter.mpr ⟨List.mem_map.mpr ⟨e, he, rfl⟩, hm⟩
      simp [hmem, hm]
    · have hnot : ¬ e.1 ∈ globMatches fs := fun hc => hm (List.mem_filter.mp hc).2
      simp [hnot, hm]
  · intro rf n names fs h
    simp [cleanupLoop, h]

/-- Witness for C9's amended no-failure clause at a concrete directory. -/
theorem cleanup_deletes_matching_files_witness :
    cleanup_generated_images (fun _ => false)
        [("generated_a.png", [1]), ("notes.txt", [2])] =
      [("notes.txt", [2])] := by
  have h := cleanup_deletes_matching_files.1 (fun _ => false)
    [("generated_a.png", [1]), ("notes.txt", [2])] (fun n _ => rfl)
  rw [h]
  decide
